import Mathlib

/-!
Shallow embedding of the postmaster-go client library.

Go values seen by the reflective parameter encoder (`mapStructNested` in
`utils.go`) are modelled by the inductive type `GoValue`.  A struct is a
list of fields; each field carries its declared Go name, its `json` tag
(`""` when absent), its `dontMap:"true"` flag, and its value.  Go's
`float32` is modelled by the string `fmt.Sprintf("%v", x)` produces for it
(the encoder only ever inspects that rendering).  The `map[string]string`
result is modelled as an association list built in field-declaration
order, with Go's overwrite-on-assign semantics (`mapSet`).
-/

namespace Postmaster

inductive GoValue where
  | str (s : String)
  | int (n : Int)
  | float (render : String)
  | bool (b : Bool)
  | structV (fields : List (String × String × Bool × GoValue))
  | slice (elems : List GoValue)
  | ptr (v : GoValue)

abbrev GoField := String × String × Bool × GoValue

/-- The pointer-stripping loop at the top of `mapStructNested`:
`for reflect.TypeOf(s).Kind() == reflect.Ptr { s = ...Elem()... }`. -/
def stripPtr : GoValue → GoValue
  | .ptr v => stripPtr v
  | v => v

/-- True exactly when `reflect.ValueOf(v).Kind() == reflect.Struct`. -/
def isStructKind : GoValue → Bool
  | .structV _ => true
  | _ => false

/-- True exactly when the reflect kind is `reflect.Float32` or `reflect.Int`,
the two kinds special-cased by the zero-omission test in `mapStructNested`. -/
def isNumKind : GoValue → Bool
  | .int _ => true
  | .float _ => true
  | _ => false

/-- Decimal digit character, as produced by Go's `strconv`. -/
def digitChar (n : Nat) : Char := Char.ofNat (48 + n)

/-- Decimal rendering of a natural number (the digits of `strconv.Itoa`). -/
def natDigits (n : Nat) : List Char :=
  if h : n < 10 then [digitChar n]
  else natDigits (n / 10) ++ [digitChar (n % 10)]
  decreasing_by exact Nat.div_lt_self (by omega) (by omega)

def natRepr (n : Nat) : String := String.mk (natDigits n)

/-- Rendering of a Go `int` by `fmt.Sprintf("%v", _)`: decimal, with a
leading minus sign for negative values. -/
def intRepr (n : Int) : String :=
  if n < 0 then "-" ++ natRepr n.natAbs else natRepr n.natAbs

/- Rendering of a value by `fmt.Sprintf("%v", v.Interface())`.  Strings
print verbatim, ints in decimal, bools as `true`/`false`; a modelled
float carries its own rendering.  Structs print `\x7bf1 f2 ...\x7d` and
slices `[e1 e2 ...]`.  `fmt` prints `&` followed by the element for a
pointer to a compound value and a machine address for a pointer to a
scalar; the address case is outside this pure model, so `ptr` uniformly
renders as `&` followed by the element (no encodable field of this
repository is a pointer, so the encoder never reaches this case). -/
mutual

def goRender : GoValue → String
  | .str s => s
  | .int n => intRepr n
  | .float r => r
  | .bool b => if b then "true" else "false"
  | .structV fs => "\x7b" ++ String.intercalate " " (goRenderFields fs) ++ "\x7d"
  | .slice xs => "[" ++ String.intercalate " " (goRenderElems xs) ++ "]"
  | .ptr v => "&" ++ goRender v

def goRenderFields : List (String × String × Bool × GoValue) → List String
  | [] => []
  | (_, _, _, v) :: rest => goRender v :: goRenderFields rest

def goRenderElems : List GoValue → List String
  | [] => []
  | v :: rest => goRender v :: goRenderElems rest

end

/-- `strings.ToLower`, character by character.  Go lowercases full
Unicode; `Char.toLower` covers the ASCII range, which contains every
declared field name of this repository. -/
def toLowerGo (s : String) : String :=
  String.mk (s.data.map Char.toLower)

/-- The name computation of `mapStructNested`: the `json` tag when
non-empty, otherwise `strings.ToLower` of the declared field name. -/
def effectiveName (fieldName jsonTag : String) : String :=
  if jsonTag ≠ "" then jsonTag else toLowerGo fieldName

/-- The prefix wrapping of `mapStructNested`:
`if baseName != "" { name = fmt.Sprintf("%s[%s]", baseName, name) }`. -/
def wrapName (baseName nm : String) : String :=
  if baseName ≠ "" then baseName ++ "[" ++ nm ++ "]" else nm

/-- Go map assignment `result[k] = v` on the association-list model:
overwrite the entry for `k` when present, else append. -/
def mapSet (m : List (String × String)) (k v : String) : List (String × String) :=
  if m.any fun kv => kv.1 = k then
    m.map fun kv => if kv.1 = k then (k, v) else kv
  else m ++ [(k, v)]

/-- The merge loop `for mk, mv := range m { result[mk] = mv }`. -/
def mergeMap (acc m : List (String × String)) : List (String × String) :=
  m.foldl (fun a kv => mapSet a kv.1 kv.2) acc

/-- The field loop of `mapStructNested` (utils.go lines 37 - 69), folding the
result map `acc` over the struct's fields in declaration order:
skip `dontMap:"true"` fields; compute the effective, prefix-wrapped name;
recurse into struct-kind values and merge; otherwise render the scalar and
omit it when the rendering is `"0"` for the two numeric kinds or `""`. -/
def mapFields : List GoField → String → List (String × String) → List (String × String)
  | [], _, acc => acc
  | (fname, jtag, dm, v) :: rest, bn, acc =>
    if dm then
      mapFields rest bn acc
    else
      let key := wrapName bn (effectiveName fname jtag)
      match v with
      | .structV inner =>
          mapFields rest bn (mergeMap acc (mapFields inner key []))
      | v' =>
          let value := goRender v'
          if (isNumKind v' && value = "0") || value = "" then
            mapFields rest bn acc
          else
            mapFields rest bn (mapSet acc key value)

/-- `mapStructNested` (utils.go lines 30 - 71): strip pointers, then fold the
field loop over the struct's fields.  `reflect.TypeOf(s).NumField()`
panics when the stripped value is not a struct; the panic is modelled as
`none`. -/
def mapStructNested (s : GoValue) (baseName : String) : Option (List (String × String)) :=
  match stripPtr s with
  | .structV fields => some (mapFields fields baseName [])
  | _ => none

/-- `mapStruct` (utils.go lines 25 - 27). -/
def mapStruct (s : GoValue) : Option (List (String × String)) :=
  mapStructNested s ""

/-- Uppercase hexadecimal digit, as produced by `net/url`'s escaper. -/
def hexUpper (n : Nat) : Char :=
  if n < 10 then Char.ofNat (48 + n) else Char.ofNat (55 + n)

/-- The bytes `url.QueryEscape` leaves unescaped: ASCII alphanumerics and
`-`, `.`, `_`, `~`. -/
def isUnreservedByte (n : Nat) : Bool :=
  (65 ≤ n && n ≤ 90) || (97 ≤ n && n ≤ 122) || (48 ≤ n && n ≤ 57) ||
    n == 45 || n == 46 || n == 95 || n == 126

/-- `url.QueryEscape` on a single byte: unreserved bytes pass through,
a space becomes `+`, everything else becomes `%XX` with uppercase hex. -/
def escapeByte (n : Nat) : String :=
  if isUnreservedByte n then String.singleton (Char.ofNat n)
  else if n == 32 then "+"
  else "%" ++ String.singleton (hexUpper (n / 16)) ++ String.singleton (hexUpper (n % 16))

/-- UTF-8 encoding of one character, as the bytes of a Go string. -/
def utf8Bytes (c : Char) : List Nat :=
  let n := c.toNat
  if n < 128 then [n]
  else if n < 2048 then [192 + n / 64, 128 + n % 64]
  else if n < 65536 then [224 + n / 4096, 128 + (n / 64) % 64, 128 + n % 64]
  else [240 + n / 262144, 128 + (n / 4096) % 64, 128 + (n / 64) % 64, 128 + n % 64]

/-- `url.QueryEscape`: escape every byte of the string's UTF-8 form. -/
def queryEscape (s : String) : String :=
  String.join (s.data.map fun c => String.join ((utf8Bytes c).map escapeByte))

/-- `urlencode` (utils.go lines 12 - 20): keep the entries with a non-empty
value, render each as `k=escaped(v)`, join with `&`, and surround the
whole with one `&` on each side. -/
def urlencode (params : List (String × String)) : String :=
  "&" ++ String.intercalate "&"
      ((params.filter fun kv => kv.2 ≠ "").map fun kv => kv.1 ++ "=" ++ queryEscape kv.2)
    ++ "&"

/-!
The record model of the shipment API file.  Each Go struct becomes a Lean
structure holding the field values, together with a `goFields` embedding
that lists the fields exactly as declared in the Go source: declared
name, `json` tag, `dontMap` flag, value.  Go's `float32` fields are
modelled by their `%v` rendering (`GoFloat`), `int` fields by `Int`.
-/

/-- A Go `float32` value, modelled by the string `fmt.Sprintf("%v", _)`
renders it to (`"0"` for the zero value). -/
structure GoFloat where
  render : String
deriving DecidableEq

/-- The `Postmaster` base object.  Its declaration is not under src/;
utils.go's `makeUrl` evidences its `BaseUrl` field, the only one the
modelled code reads. -/
structure Postmaster where
  BaseUrl : String
deriving DecidableEq

/-- `makeUrl` (utils.go lines 74 - 82). -/
def Postmaster.makeUrl (p : Postmaster) (version endpoint : String) : String :=
  (if p.BaseUrl ≠ "" then p.BaseUrl else "http://api.postmaster.io")
    ++ "/" ++ version ++ "/" ++ endpoint

/-- Modelled from the spec: the `Address` record shape is not under src/;
the spec treats addresses as nested records opaque to the encoder, so an
address is an arbitrary field list, embedded as a struct value. -/
def Address : Type := List GoField

/-- `CustomContent` struct (shipment file lines 50 - 58). -/
structure CustomContent where
  Description : String
  Quantity : String
  Value : String
  Weight : GoFloat
  WeightUnits : String
  HSTariffNumber : String
  CountryOfOrigin : String
deriving DecidableEq

def CustomContent.goFields (c : CustomContent) : List GoField :=
  [ ("Description", "", false, .str c.Description),
    ("Quantity", "", false, .str c.Quantity),
    ("Value", "", false, .str c.Value),
    ("Weight", "", false, .float c.Weight.render),
    ("WeightUnits", "weight_units", false, .str c.WeightUnits),
    ("HSTariffNumber", "hs_tariff_number", false, .str c.HSTariffNumber),
    ("CountryOfOrigin", "country_of_origin", false, .str c.CountryOfOrigin) ]

/-- `Custom` struct (shipment file lines 62 - 67).  The Go field `Type`
is spelled `Type'` because `Type` is reserved in Lean. -/
structure Custom where
  Type' : String
  Comments : String
  InvoiceNumber : String
  Contents : CustomContent
deriving DecidableEq

def Custom.goFields (c : Custom) : List GoField :=
  [ ("Type", "", false, .str c.Type'),
    ("Comments", "", false, .str c.Comments),
    ("InvoiceNumber", "invoice_number", false, .str c.InvoiceNumber),
    ("Contents", "", false, .structV c.Contents.goFields) ]

/-- `Package` struct (shipment file lines 35 - 47).  `Type'` models the Go
field `Type`. -/
structure Package where
  Id : Int
  Name : String
  Width : GoFloat
  Height : GoFloat
  Length : GoFloat
  Weight : GoFloat
  Customs : Custom
  DimensionUnits : String
  WeightUnits : String
  Type' : String
  LabelUrl : String
deriving DecidableEq

def Package.goFields (p : Package) : List GoField :=
  [ ("Id", "", true, .int p.Id),
    ("Name", "", false, .str p.Name),
    ("Width", "", false, .float p.Width.render),
    ("Height", "", false, .float p.Height.render),
    ("Length", "", false, .float p.Length.render),
    ("Weight", "", false, .float p.Weight.render),
    ("Customs", "", false, .structV p.Customs.goFields),
    ("DimensionUnits", "dimension_units", true, .str p.DimensionUnits),
    ("WeightUnits", "weight_units", true, .str p.WeightUnits),
    ("Type", "", true, .str p.Type'),
    ("LabelUrl", "label_url", true, .str p.LabelUrl) ]

/-- `Shipment` struct (shipment file lines 10 - 24).  The `p *Postmaster`
back-reference field is `dontMap` and never read by the encoder; its
value is embedded as a pointer to the base object's struct shape. -/
structure Shipment where
  p : Postmaster
  Id : Int
  To : Address
  From : Address
  Package : Package
  Carrier : String
  Service : String
  Status : String
  Tracking : List String
  PackageCount : Int
  CreatedAt : Int
  Cost : Int
  Prepaid : Bool

def Shipment.goFields (s : Shipment) : List GoField :=
  [ ("p", "", true, .ptr (.structV [("BaseUrl", "", false, .str s.p.BaseUrl)])),
    ("Id", "", true, .int s.Id),
    ("To", "", false, .structV s.To),
    ("From", "", false, .structV s.From),
    ("Package", "", false, .structV s.Package.goFields),
    ("Carrier", "", false, .str s.Carrier),
    ("Service", "", false, .str s.Service),
    ("Status", "", true, .str s.Status),
    ("Tracking", "", true, .slice (s.Tracking.map GoValue.str)),
    ("PackageCount", "package_count", false, .int s.PackageCount),
    ("CreatedAt", "created_at", false, .int s.CreatedAt),
    ("Cost", "", true, .int s.Cost),
    ("Prepaid", "", true, .bool s.Prepaid) ]

def Shipment.toGoValue (s : Shipment) : GoValue :=
  .structV s.goFields

/-- `ShipmentList` struct (shipment file lines 27 - 31). -/
structure ShipmentList where
  Results : List Shipment
  Cursor : String
  PreviousCursor : String

/-- Modelled from the spec: `TrackingResponse` is a record decoded from
the tracking endpoint's response; its declaration is not under src/ and
no claim inspects its fields, so it is an opaque decoded payload. -/
structure TrackingResponse where
  payload : List (String × String)

/-- An HTTP request as handed to the out-of-src transport helpers
(`post`/`get`/`del`): verb, API version, endpoint, and the parameter
mapping passed along (`none` models Go's `nil` map argument). -/
inductive Req where
  | post (version endpoint : String) (params : List (String × String))
  | get (version endpoint : String) (params : Option (List (String × String)))
  | del (version endpoint : String) (params : Option (List (String × String)))

/-- Modelled from the spec: the outcome the out-of-scope HTTP transport
delivers for one request — an opaque error (propagated unchanged to the
caller) and the value its decoder writes into the result target. -/
structure Outcome (α : Type) where
  err : Option String
  decoded : α

/-!
Each lifecycle operation is modelled as a pure function of the record and
the transport outcome it would observe, returning the Go results together
with the list of requests it issued (empty when no request was
attempted).  The transport call itself and the JSON decoding are the
out-of-scope collaborator; the decoded value comes from the `Outcome`.
-/

/-- `Shipment.Create` (shipment file lines 80 - 87).  `mapStruct` is total
on a `*Shipment` argument (a record shape), so its `Option` is collapsed
with a default that is never reached. -/
def Shipment.Create (s : Shipment) (o : Outcome Shipment) :
    Option Shipment × Option String × List Req :=
  if s.Id ≠ -1 then
    (none, some "You can't create an existing shipment.", [])
  else
    let params := (mapStruct (.ptr s.toGoValue)).getD []
    (some o.decoded, o.err, [Req.post "v1" "shipments" params])

/-- `Shipment.Get` (shipment file lines 91 - 98). -/
def Shipment.Get (s : Shipment) (o : Outcome Shipment) :
    Option Shipment × Option String × List Req :=
  if s.Id = -1 then
    (none, some "You must provide a shipment ID.", [])
  else
    (some o.decoded, o.err, [Req.get "v1" ("shipments/" ++ intRepr s.Id) none])

/-- Read of a decoded `map[string]string` response; a missing key (or a
`nil` map left untouched by a failed transport) reads as `""`. -/
def msgLookup (m : List (String × String)) (k : String) : String :=
  (m.lookup k).getD ""

/-- `Shipment.Void` (shipment file lines 102 - 113): on response message
`"OK"` the in-memory status is set to `"Voided"`; the boolean result is
the message comparison and the error is the transport's, independently.
The first component is the shipment as left in memory. -/
def Shipment.Void (s : Shipment) (o : Outcome (List (String × String))) :
    Shipment × Bool × Option String × List Req :=
  if s.Id = -1 then
    (s, false, some "You must provide a shipment ID.", [])
  else
    let s' := if msgLookup o.decoded "message" = "OK" then { s with Status := "Voided" } else s
    (s', msgLookup o.decoded "message" = "OK", o.err,
      [Req.del "v1" ("shipments/" ++ intRepr s.Id ++ "/void") none])

/-- `Shipment.Track` (shipment file lines 119 - 127). -/
def Shipment.Track (s : Shipment) (o : Outcome TrackingResponse) :
    Option TrackingResponse × Option String × List Req :=
  if s.Id = -1 then
    (none, some "You must provide a shipment ID.", [])
  else
    (some o.decoded, o.err, [Req.get "v1" ("shipments/" ++ intRepr s.Id ++ "/track") none])

/-- The query-parameter mapping `ListShipments` builds (shipment file
lines 131 - 140): `limit` when positive, `cursor` and `status` when
non-empty, in insertion order. -/
def listShipmentsParams (limit : Int) (cursor status : String) : List (String × String) :=
  (if limit > 0 then [("limit", intRepr limit)] else [])
    ++ (if cursor ≠ "" then [("cursor", cursor)] else [])
    ++ (if status ≠ "" then [("status", status)] else [])

/-- `Postmaster.ListShipments` (shipment file lines 130 - 148).  The
back-reference loop that stores the base object into each result element
touches only the `dontMap` field `p`; the decoded list comes from the
transport outcome with that field already set. -/
def Postmaster.ListShipments (_p : Postmaster) (limit : Int) (cursor status : String)
    (o : Outcome ShipmentList) : Option ShipmentList × Option String × List Req :=
  (some o.decoded, o.err, [Req.get "v1" "shipments" (some (listShipmentsParams limit cursor status))])

/-- The query-parameter mapping `FindShipments` builds after its query
check (shipment file lines 153 - 163): `q` always, `limit` when positive,
`cursor` when non-empty. -/
def findShipmentsParams (q : String) (limit : Int) (cursor : String) : List (String × String) :=
  [("q", q)]
    ++ (if limit > 0 then [("limit", intRepr limit)] else [])
    ++ (if cursor ≠ "" then [("cursor", cursor)] else [])

/-- `Postmaster.FindShipments` (shipment file lines 152 - 171). -/
def Postmaster.FindShipments (_p : Postmaster) (q : String) (limit : Int) (cursor : String)
    (o : Outcome ShipmentList) : Option ShipmentList × Option String × List Req :=
  if q = "" then
    (none, some "You must provide search query.", [])
  else
    (some o.decoded, o.err,
      [Req.get "v1" "shipments/search" (some (findShipmentsParams q limit cursor))])

/-!
Concrete record values used by the claims: zero-valued records as Go's
zero values leave them, and the fresh shipment `Postmaster.Shipment()`
builds (`s.Id = -1`, every other encodable field at its zero value).
-/

def zeroFloat : GoFloat := ⟨"0"⟩

def zeroContent : CustomContent :=
  { Description := "", Quantity := "", Value := "", Weight := zeroFloat,
    WeightUnits := "", HSTariffNumber := "", CountryOfOrigin := "" }

def zeroCustom : Custom :=
  { Type' := "", Comments := "", InvoiceNumber := "", Contents := zeroContent }

def zeroPackage : Package :=
  { Id := 0, Name := "", Width := zeroFloat, Height := zeroFloat, Length := zeroFloat,
    Weight := zeroFloat, Customs := zeroCustom, DimensionUnits := "", WeightUnits := "",
    Type' := "", LabelUrl := "" }

/-- The `Shipment()` constructor (shipment file lines 71 - 76): a fresh
shipment with the back-reference set, `Id = -1`, and zero values
elsewhere. -/
def Postmaster.mkShipment (p : Postmaster) : Shipment :=
  { p := p, Id := -1, To := [], From := [], Package := zeroPackage,
    Carrier := "", Service := "", Status := "", Tracking := [],
    PackageCount := 0, CreatedAt := 0, Cost := 0, Prepaid := false }

/-- A fresh shipment whose only non-zero encodable field is the doubly
nested customs contents description, set to `"Gift"`. -/
def giftShipment : Shipment :=
  { Postmaster.mkShipment ⟨""⟩ with
    Package := { zeroPackage with
      Customs := { zeroCustom with
        Contents := { zeroContent with Description := "Gift" } } } }

/-- A fresh shipment with every `dontMap` field set to a non-default
value and one encodable field (`Carrier`) set, to separate the two. -/
def junkShipment : Shipment :=
  { Postmaster.mkShipment ⟨"http://example.invalid"⟩ with
    Id := 7, Carrier := "UPS", Status := "shipped", Tracking := ["TN1"],
    Cost := 1200, Prepaid := true }

/-- A fresh shipment whose only non-zero encodable field is
`PackageCount = 3` (Go tag `json:"package_count"`). -/
def pkgCountShipment : Shipment :=
  { Postmaster.mkShipment ⟨""⟩ with PackageCount := 3 }

/-- Iterated pointer indirection around a value. -/
def ptrIter (k : Nat) (v : GoValue) : GoValue :=
  match k with
  | 0 => v
  | k + 1 => .ptr (ptrIter k v)

/-!
Helper lemmas about the decimal rendering.
-/

theorem natDigits_ne_nil (n : Nat) : natDigits n ≠ [] := by
  rw [natDigits]
  split <;> simp

theorem natRepr_zero : natRepr 0 = "0" := by
  unfold natRepr
  rw [natDigits]
  simp [digitChar]

theorem natRepr_eq_zero (n : Nat) (h : natRepr n = "0") : n = 0 := by
  unfold natRepr at h
  rw [natDigits] at h
  split at h
  · next hlt =>
    interval_cases n <;> simp_all [digitChar]
  · exfalso
    have h2 : natDigits (n / 10) ++ [digitChar (n % 10)] = ['0'] := by
      have := congrArg String.data h
      simpa using this
    have hlen := congrArg List.length h2
    simp at hlen
    exact natDigits_ne_nil _ hlen

theorem natRepr_ne_empty (n : Nat) : natRepr n ≠ "" := by
  unfold natRepr
  intro h
  have h2 : natDigits n = [] := by
    have := congrArg String.data h
    simpa using this
  exact natDigits_ne_nil _ h2

theorem intRepr_eq_zero_iff (n : Int) : intRepr n = "0" ↔ n = 0 := by
  constructor
  · intro h
    unfold intRepr at h
    split at h
    · exfalso
      have h2 := congrArg String.data h
      rw [String.data_append] at h2
      simp at h2
    · have := natRepr_eq_zero _ h
      omega
  · intro h
    subst h
    simpa [intRepr] using natRepr_zero

theorem intRepr_ne_empty (n : Int) : intRepr n ≠ "" := by
  unfold intRepr
  split
  · intro h
    have h2 := congrArg String.data h
    rw [String.data_append] at h2
    simp at h2
  · exact natRepr_ne_empty _

theorem stripPtr_ptr (v : GoValue) : stripPtr (.ptr v) = stripPtr v := rfl

theorem mapStructNested_ptr (v : GoValue) (bn : String) :
    mapStructNested (.ptr v) bn = mapStructNested v bn := rfl

/-- Claim C1: a leaf field reached through nested records is emitted under
the bracket-chained key built from each level's effective name — under
prefix `p`, recursing into a nested record named `n`, a leaf `f` gets key
`p[n][f]` when `p` is non-empty and `n[f]` otherwise; in particular a
Shipment whose Package's Customs' Contents' Description is `"Gift"`
encodes to the key `package[customs][contents][description]` with value
`"Gift"`, three levels deep. -/
theorem nested_bracket_chained_keys :
    (∀ (bn n f val : String), val ≠ "" →
      mapStructNested (.structV [(n, "", false, .structV [(f, "", false, .str val)])]) bn
        = some [(wrapName (wrapName bn (toLowerGo n)) (toLowerGo f), val)]) ∧
    mapStruct giftShipment.toGoValue
      = some [("package[customs][contents][description]", "Gift")] := by
  constructor
  · intro bn n f val hval
    simp [mapStructNested, stripPtr, mapFields, mergeMap, mapSet, effectiveName,
      goRender, isNumKind, hval]
  · simp [mapStruct, mapStructNested, stripPtr, mapFields, mergeMap, mapSet, wrapName,
      effectiveName, toLowerGo, goRender, intRepr, natRepr, natDigits, digitChar, isNumKind,
      giftShipment, Shipment.goFields, Package.goFields, Custom.goFields,
      CustomContent.goFields, zeroPackage, zeroCustom, zeroContent, zeroFloat,
      Shipment.toGoValue, Postmaster.mkShipment]

/-- Witness for C1 at a concrete two-level record under prefix `"p"`. -/
theorem nested_bracket_chained_keys_witness :
    mapStructNested (.structV [("N", "", false, .structV [("F", "", false, .str "x")])]) "p"
      = some [("p[n][f]", "x")] := by
  have h := nested_bracket_chained_keys.1 "p" "N" "F" "x" (by decide)
  exact h.trans (by simp [wrapName, toLowerGo])

/-- Claim C2: a field tagged `dontMap:"true"` contributes no key to the
encoder's output whatever its runtime value, and the encoder does not
recurse into it even when it is a nested record with encodable
sub-fields; concretely, a shipment with every `dontMap` field set to
non-default junk encodes only its encodable fields. -/
theorem dontMap_fields_never_encoded :
    (∀ (fname jtag : String) (v : GoValue) (rest : List GoField) (bn : String)
        (acc : List (String × String)),
      mapFields ((fname, jtag, true, v) :: rest) bn acc = mapFields rest bn acc) ∧
    (∀ (bn n jtag : String) (inner : List GoField),
      mapStructNested (.structV [(n, jtag, true, .structV inner)]) bn = some []) ∧
    mapStruct junkShipment.toGoValue = some [("carrier", "UPS")] := by
  refine ⟨?_, ?_, ?_⟩
  · intro fname jtag v rest bn acc
    rw [mapFields]
    simp
  · intro bn n jtag inner
    simp [mapStructNested, stripPtr, mapFields]
  · simp [mapStruct, mapStructNested, stripPtr, mapFields, mergeMap, mapSet, wrapName,
      effectiveName, toLowerGo, goRender, intRepr, natRepr, natDigits, digitChar, isNumKind,
      junkShipment, Shipment.goFields, Package.goFields, Custom.goFields,
      CustomContent.goFields, zeroPackage, zeroCustom, zeroContent, zeroFloat,
      Shipment.toGoValue, Postmaster.mkShipment]

/-- Claim C3: an encodable scalar field at a numeric zero value (int `0`,
float rendering `"0"`) or an empty string yields no key; any other value
yields exactly one key, the effective name, bound to the canonical
rendering (decimal for ints, verbatim for strings, the `%v` rendering for
floats). -/
theorem scalar_zero_omission_and_emission :
    ∀ (fname jtag bn : String) (n : Int) (s fl : String),
      (mapStructNested (.structV [(fname, jtag, false, .int 0)]) bn = some []) ∧
      (mapStructNested (.structV [(fname, jtag, false, .float "0")]) bn = some []) ∧
      (mapStructNested (.structV [(fname, jtag, false, .str "")]) bn = some []) ∧
      (n ≠ 0 → mapStructNested (.structV [(fname, jtag, false, .int n)]) bn
          = some [(wrapName bn (effectiveName fname jtag), intRepr n)]) ∧
      (s ≠ "" → mapStructNested (.structV [(fname, jtag, false, .str s)]) bn
          = some [(wrapName bn (effectiveName fname jtag), s)]) ∧
      (fl ≠ "0" → fl ≠ "" → mapStructNested (.structV [(fname, jtag, false, .float fl)]) bn
          = some [(wrapName bn (effectiveName fname jtag), fl)]) := by
  intro fname jtag bn n s fl
  refine ⟨?_, ?_, ?_, ?_, ?_, ?_⟩
  · simp [mapStructNested, stripPtr, mapFields, goRender, isNumKind, intRepr_eq_zero_iff]
  · simp [mapStructNested, stripPtr, mapFields, goRender, isNumKind]
  · simp [mapStructNested, stripPtr, mapFields, goRender, isNumKind]
  · intro hn
    simp [mapStructNested, stripPtr, mapFields, goRender, isNumKind, mapSet,
      intRepr_eq_zero_iff, hn, intRepr_ne_empty]
  · intro hs
    simp [mapStructNested, stripPtr, mapFields, goRender, isNumKind, mapSet, hs]
  · intro h0 he
    simp [mapStructNested, stripPtr, mapFields, goRender, isNumKind, mapSet, h0, he]

/-- Witness for C3 at concrete zero and non-zero scalar fields. -/
theorem scalar_zero_omission_and_emission_witness :
    (mapStructNested (.structV [("Count", "", false, .int 0)]) "" = some []) ∧
    (mapStructNested (.structV [("Count", "", false, .float "0")]) "" = some []) ∧
    (mapStructNested (.structV [("Note", "", false, .str "")]) "" = some []) ∧
    (mapStructNested (.structV [("Count", "", false, .int 42)]) "" = some [("count", "42")]) ∧
    (mapStructNested (.structV [("Note", "", false, .str "hi")]) "" = some [("note", "hi")]) ∧
    (mapStructNested (.structV [("Weight", "", false, .float "1.5")]) ""
      = some [("weight", "1.5")]) := by
  have h := scalar_zero_omission_and_emission "Count" "" "" 42 "hi" "1.5"
  have h2 := scalar_zero_omission_and_emission "Note" "" "" 42 "hi" "1.5"
  have h3 := scalar_zero_omission_and_emission "Weight" "" "" 42 "hi" "1.5"
  refine ⟨h.1, h.2.1, h2.2.2.1, ?_, ?_, ?_⟩
  · exact (h.2.2.2.1 (by decide)).trans
      (by simp [wrapName, effectiveName, toLowerGo, intRepr, natRepr, natDigits, digitChar])
  · exact (h2.2.2.2.2.1 (by decide)).trans (by simp [wrapName, effectiveName, toLowerGo])
  · exact (h3.2.2.2.2.2 (by decide) (by decide)).trans
      (by simp [wrapName, effectiveName, toLowerGo])

/-- Claim C4: the effective encode name is the `json` tag when present,
else the lowercased declared field name; with a non-empty prefix the
emitted name is `prefix[name]`, with an empty prefix the bare name;
concretely `PackageCount` with tag `package_count` and value 3 encodes as
key `package_count`. -/
theorem effective_name_and_wrapping :
    (∀ fname jtag : String, jtag ≠ "" → effectiveName fname jtag = jtag) ∧
    (∀ fname : String, effectiveName fname "" = toLowerGo fname) ∧
    (∀ nm : String, wrapName "" nm = nm) ∧
    (∀ bn nm : String, bn ≠ "" → wrapName bn nm = bn ++ "[" ++ nm ++ "]") ∧
    (∀ (fname jtag bn s : String), s ≠ "" →
      mapStructNested (.structV [(fname, jtag, false, .str s)]) bn
        = some [(wrapName bn (effectiveName fname jtag), s)]) ∧
    mapStruct pkgCountShipment.toGoValue = some [("package_count", "3")] := by
  refine ⟨?_, ?_, ?_, ?_, ?_, ?_⟩
  · intro fname jtag h
    simp [effectiveName, h]
  · intro fname
    simp [effectiveName]
  · intro nm
    simp [wrapName]
  · intro bn nm h
    simp [wrapName, h]
  · intro fname jtag bn s hs
    simp [mapStructNested, stripPtr, mapFields, goRender, isNumKind, mapSet, hs]
  · simp [mapStruct, mapStructNested, stripPtr, mapFields, mergeMap, mapSet, wrapName,
      effectiveName, toLowerGo, goRender, intRepr, natRepr, natDigits, digitChar, isNumKind,
      pkgCountShipment, Shipment.goFields, Package.goFields, Custom.goFields,
      CustomContent.goFields, zeroPackage, zeroCustom, zeroContent, zeroFloat,
      Shipment.toGoValue, Postmaster.mkShipment]

/-- Witness for C4 at concrete names, tags and prefixes. -/
theorem effective_name_and_wrapping_witness :
    (effectiveName "PackageCount" "package_count" = "package_count") ∧
    (effectiveName "Carrier" "" = "carrier") ∧
    (wrapName "" "carrier" = "carrier") ∧
    (wrapName "package" "customs" = "package[customs]") ∧
    (mapStructNested (.structV [("Carrier", "", false, .str "UPS")]) "ship"
      = some [("ship[carrier]", "UPS")]) := by
  obtain ⟨h1, h2, h3, h4, h5, _⟩ := effective_name_and_wrapping
  refine ⟨h1 _ _ (by decide), (h2 "Carrier").trans (by simp [toLowerGo]), h3 _,
    (h4 "package" "customs" (by decide)).trans (by decide), ?_⟩
  exact (h5 "Carrier" "" "ship" "UPS" (by decide)).trans
    (by simp [wrapName, effectiveName, toLowerGo])

/-- Claim C5: every precondition violation returns an error immediately,
with no encoding and no request issued — Create on a shipment whose Id is
not the sentinel -1, Get/Void/Track on a shipment whose Id is -1, and
FindShipments with an empty query. -/
theorem precondition_errors_immediate :
    (∀ (s : Shipment) (o : Outcome Shipment), s.Id ≠ -1 →
      s.Create o = (none, some "You can't create an existing shipment.", [])) ∧
    (∀ (s : Shipment) (o : Outcome Shipment), s.Id = -1 →
      s.Get o = (none, some "You must provide a shipment ID.", [])) ∧
    (∀ (s : Shipment) (o : Outcome (List (String × String))), s.Id = -1 →
      s.Void o = (s, false, some "You must provide a shipment ID.", [])) ∧
    (∀ (s : Shipment) (o : Outcome TrackingResponse), s.Id = -1 →
      s.Track o = (none, some "You must provide a shipment ID.", [])) ∧
    (∀ (p : Postmaster) (limit : Int) (cursor : String) (o : Outcome ShipmentList),
      p.FindShipments "" limit cursor o = (none, some "You must provide search query.", [])) := by
  refine ⟨?_, ?_, ?_, ?_, ?_⟩ <;> intros <;>
    simp_all [Shipment.Create, Shipment.Get, Shipment.Void, Shipment.Track,
      Postmaster.FindShipments]

/-- Witness for C5 at concrete shipments and outcomes. -/
theorem precondition_errors_immediate_witness :
    (junkShipment.Create ⟨none, Postmaster.mkShipment ⟨""⟩⟩
      = (none, some "You can't create an existing shipment.", [])) ∧
    ((Postmaster.mkShipment ⟨""⟩).Get ⟨none, Postmaster.mkShipment ⟨""⟩⟩
      = (none, some "You must provide a shipment ID.", [])) ∧
    ((Postmaster.mkShipment ⟨""⟩).Void ⟨none, [("message", "OK")]⟩
      = (Postmaster.mkShipment ⟨""⟩, false, some "You must provide a shipment ID.", [])) ∧
    ((Postmaster.mkShipment ⟨""⟩).Track ⟨none, ⟨[]⟩⟩
      = (none, some "You must provide a shipment ID.", [])) ∧
    ((⟨""⟩ : Postmaster).FindShipments "" 5 "cur" ⟨none, ⟨[], "", ""⟩⟩
      = (none, some "You must provide search query.", [])) := by
  obtain ⟨h1, h2, h3, h4, h5⟩ := precondition_errors_immediate
  exact ⟨h1 _ _ (by decide), h2 _ _ (by decide), h3 _ _ (by decide),
    h4 _ _ (by decide), h5 _ _ _ _⟩

/-- Claim C6: Void on a valid shipment sets Status to `"Voided"` and
returns `true` exactly when the decoded response message is `"OK"`;
any other message leaves the shipment untouched and returns `false`;
the returned error is the transport's error in both cases, an
independent signal. -/
theorem void_success_and_error_independent :
    ∀ (s : Shipment) (o : Outcome (List (String × String))), s.Id ≠ -1 →
      (msgLookup o.decoded "message" = "OK" →
        s.Void o = ({ s with Status := "Voided" }, true, o.err,
          [Req.del "v1" ("shipments/" ++ intRepr s.Id ++ "/void") none])) ∧
      (msgLookup o.decoded "message" ≠ "OK" →
        s.Void o = (s, false, o.err,
          [Req.del "v1" ("shipments/" ++ intRepr s.Id ++ "/void") none])) := by
  intro s o hid
  constructor <;> intro hmsg <;> simp [Shipment.Void, hid, hmsg]

/-- Witness for C6 at a concrete shipment, for both message branches. -/
theorem void_success_and_error_independent_witness :
    (junkShipment.Void ⟨none, [("message", "OK")]⟩
      = ({ junkShipment with Status := "Voided" }, true, none,
         [Req.del "v1" "shipments/7/void" none])) ∧
    (junkShipment.Void ⟨none, [("message", "FAIL")]⟩
      = (junkShipment, false, none, [Req.del "v1" "shipments/7/void" none])) := by
  have hOK := (void_success_and_error_independent junkShipment
    ⟨none, [("message", "OK")]⟩ (by decide)).1 (by decide)
  have hBad := (void_success_and_error_independent junkShipment
    ⟨none, [("message", "FAIL")]⟩ (by decide)).2 (by decide)
  have hEp : intRepr junkShipment.Id = "7" := by
    simp [junkShipment, Postmaster.mkShipment, intRepr, natRepr, natDigits, digitChar]
  constructor
  · exact hOK.trans (by rw [hEp]; rfl)
  · exact hBad.trans (by rw [hEp]; rfl)

/-- Claim C7: ListShipments builds its query parameters from only the
non-default arguments — all defaults give an empty set, `(10, "",
"pending")` gives exactly limit and status, and in general a
non-positive limit or empty cursor/status is omitted while each
non-default argument contributes exactly one entry. -/
theorem list_shipments_non_default_params :
    (listShipmentsParams 0 "" "" = []) ∧
    (listShipmentsParams 10 "" "pending" = [("limit", "10"), ("status", "pending")]) ∧
    (∀ (limit : Int) (cursor status : String),
      (limit ≤ 0 → ∀ v, ("limit", v) ∉ listShipmentsParams limit cursor status) ∧
      (limit > 0 →
        (listShipmentsParams limit cursor status).countP (fun kv => kv.1 == "limit") = 1 ∧
        ("limit", intRepr limit) ∈ listShipmentsParams limit cursor status) ∧
      (cursor = "" → ∀ v, ("cursor", v) ∉ listShipmentsParams limit cursor status) ∧
      (cursor ≠ "" →
        (listShipmentsParams limit cursor status).countP (fun kv => kv.1 == "cursor") = 1 ∧
        ("cursor", cursor) ∈ listShipmentsParams limit cursor status) ∧
      (status = "" → ∀ v, ("status", v) ∉ listShipmentsParams limit cursor status) ∧
      (status ≠ "" →
        (listShipmentsParams limit cursor status).countP (fun kv => kv.1 == "status") = 1 ∧
        ("status", status) ∈ listShipmentsParams limit cursor status)) ∧
    (∀ (p : Postmaster) (limit : Int) (cursor status : String) (o : Outcome ShipmentList),
      p.ListShipments limit cursor status o
        = (some o.decoded, o.err,
           [Req.get "v1" "shipments" (some (listShipmentsParams limit cursor status))])) := by
  refine ⟨by simp [listShipmentsParams], ?_, ?_, fun p limit cursor status o => rfl⟩
  · simp [listShipmentsParams, intRepr, natRepr, natDigits, digitChar]
  · intro limit cursor status
    refine ⟨?_, ?_, ?_, ?_, ?_, ?_⟩ <;> intro h <;>
      unfold listShipmentsParams <;>
      split_ifs <;> simp_all [List.countP_append, List.countP_cons] <;> omega

/-- Witness for C7 at concrete non-default and default arguments. -/
theorem list_shipments_non_default_params_witness :
    ((listShipmentsParams 5 "c1" "s1").countP (fun kv => kv.1 == "limit") = 1) ∧
    (("cursor", "c1") ∈ listShipmentsParams 5 "c1" "s1") ∧
    (("status", "s1") ∈ listShipmentsParams 5 "c1" "s1") ∧
    (("limit", "9") ∉ listShipmentsParams 0 "" "x") := by
  have h := list_shipments_non_default_params.2.2.1 5 "c1" "s1"
  have h0 := list_shipments_non_default_params.2.2.1 0 "" "x"
  exact ⟨(h.2.1 (by decide)).1, (h.2.2.2.1 (by decide)).2, (h.2.2.2.2.2 (by decide)).2,
    h0.1 (by decide) "9"⟩

/-- Claim C8: encoding a record through any number of levels of pointer
indirection gives the same output mapping as encoding the record value
directly — the encoder strips indirection before inspecting fields, and
every recursive entry (the nested-record case included) passes through
that same stripping. -/
theorem pointer_indirection_transparent :
    ∀ (k : Nat) (v : GoValue) (bn : String),
      mapStructNested (ptrIter k v) bn = mapStructNested v bn := by
  intro k v bn
  induction k with
  | zero => rfl
  | succ k ih => exact (mapStructNested_ptr (ptrIter k v) bn).trans ih

/-- Claim C9: a value that is not a record shape once indirection is
stripped makes the encoder fail deterministically (`none`), never an
empty or partial mapping. -/
theorem non_record_input_fails :
    ∀ (v : GoValue) (bn : String), isStructKind (stripPtr v) = false →
      mapStructNested v bn = none := by
  intro v bn h
  unfold mapStructNested
  cases hs : stripPtr v <;> simp_all [isStructKind]

/-- Witness for C9 at a bare scalar input. -/
theorem non_record_input_fails_witness :
    mapStructNested (.int 5) "" = none :=
  non_record_input_fails (.int 5) "" (by decide)

/-- Claim C10: for every parameter mapping, mixed mappings included,
urlencode drops the entries with an empty value, renders each remaining
entry as the verbatim key, `=`, and the percent-escaped value, joins the
renderings with `&`, and always adds one `&` at each end, so an empty or
all-empty-valued mapping yields exactly `"&&"`: the output of any mapping
equals that of its non-empty-valued entries alone (the general clauses),
and the all-empty and all-non-empty mappings specialize as stated. -/
theorem urlencode_shape :
    ∀ ps : List (String × String),
      (urlencode [] = "&&") ∧
      ((∀ kv ∈ ps, kv.2 = "") → urlencode ps = "&&") ∧
      ((∀ kv ∈ ps, kv.2 ≠ "") → urlencode ps
          = "&" ++ String.intercalate "&"
              (ps.map fun kv => kv.1 ++ "=" ++ queryEscape kv.2) ++ "&") ∧
      (urlencode (ps.filter fun kv => kv.2 ≠ "") = urlencode ps) ∧
      (urlencode ps
          = "&" ++ String.intercalate "&"
              ((ps.filter fun kv => kv.2 ≠ "").map fun kv => kv.1 ++ "=" ++ queryEscape kv.2)
            ++ "&") := by
  intro ps
  refine ⟨rfl, ?_, ?_, ?_, rfl⟩
  · intro h
    have hf : ps.filter (fun kv => kv.2 ≠ "") = [] := by
      rw [List.filter_eq_nil_iff]
      intro kv hkv
      simp [h kv hkv]
    unfold urlencode
    rw [hf]
    rfl
  · intro h
    have hf : ps.filter (fun kv => kv.2 ≠ "") = ps := by
      rw [List.filter_eq_self]
      intro kv hkv
      simpa using h kv hkv
    unfold urlencode
    rw [hf]
  · unfold urlencode
    rw [List.filter_filter]
    simp

/-- Witness for C10 at a dropped empty value, an escaped space, and a
mixed mapping where dropped and emitted entries coexist. -/
theorem urlencode_shape_witness :
    (urlencode [("a", "")] = "&&") ∧
    (urlencode [("k", "v v")] = "&k=v+v&") ∧
    (urlencode [("a", ""), ("k", "v v"), ("b", "")] = "&k=v+v&") := by
  refine ⟨(urlencode_shape [("a", "")]).2.1 (by decide),
    ((urlencode_shape [("k", "v v")]).2.2.1 (by decide)).trans (by decide),
    ((urlencode_shape [("a", ""), ("k", "v v"), ("b", "")]).2.2.2.2).trans (by decide)⟩

end Postmaster
